import Mathlib

/-!
Verification development for the Pharaon client-side event-telemetry agent
(`src/pharaon.js`).  The JavaScript source is shallowly embedded: flat JSON
objects become association lists over a closed scalar value type, the mutable
`Pharaon` class instance becomes an explicit state record threaded through the
public operations, and the effects visible to the claims (console logging and
`fetch`-based delivery to the sink) are collected as output lists.  JavaScript
string lengths are UTF-16 code-unit counts; the model uses code-point counts,
which agree on the ASCII inputs used throughout.  JavaScript numbers are
modelled as integers: no claim depends on float formatting.
-/

namespace Pharaon

/-- A scalar JSON value: the closed variant the spec's data model allows for
flat objects (`string`, `number`, `boolean`). -/
inductive JValue
  | str (s : String)
  | num (n : Int)
  | bool (b : Bool)
deriving DecidableEq

/-- A JavaScript runtime value as passed by the host page to the public
operations.  Plain objects carry flat scalar fields in insertion order;
the remaining constructors cover the malformed inputs the validation code
distinguishes (`Object.prototype.toString` is `[object Object]` only for
`vobj`). -/
inductive JSVal
  | vstr (s : String)
  | vnum (n : Int)
  | vbool (b : Bool)
  | vnull
  | vundef
  | vobj (fields : List (String × JValue))
  | varr
  | vfn
deriving DecidableEq

/-- `isPlainObject(obj)`: `Object.prototype.toString.call(obj) === '[object Object]'`. -/
def isPlainObject : JSVal → Bool
  | JSVal.vobj _ => true
  | _ => false

/-- Two lowercase hex digits of a byte, as the source computes them:
`(i + 0x100).toString(16).substr(1)`. -/
def byteToHex (b : Nat) : List Char :=
  (Nat.toDigits 16 (b + 0x100)).drop 1

/-- One character of JSON string escaping, as `JSON.stringify` emits it. -/
def escapeChar (c : Char) : String :=
  if c = '"' then "\\\""
  else if c = '\\' then "\\\\"
  else if c = '\n' then "\\n"
  else if c = '\r' then "\\r"
  else if c = '\t' then "\\t"
  else if c = '\x08' then "\\b"
  else if c = '\x0c' then "\\f"
  else if c.toNat < 0x20 then "\\u00" ++ String.mk (byteToHex c.toNat)
  else String.singleton c

/-- JSON escaping of a list of characters, one `escapeChar` each. -/
def escapeList : List Char → String
  | [] => ""
  | c :: cs => escapeChar c ++ escapeList cs

/-- JSON escaping of a string body. -/
def escapeString (s : String) : String :=
  escapeList s.data

/-- A JSON string literal: quotes around the escaped body. -/
def jsonString (s : String) : String :=
  "\"" ++ escapeString s ++ "\""

/-- `JSON.stringify` of one scalar value. -/
def serializeVal : JValue → String
  | JValue.str s => jsonString s
  | JValue.num n => toString n
  | JValue.bool b => cond b "true" "false"

/-- `JSON.stringify` of one `key: value` member. -/
def serializeEntry (e : String × JValue) : String :=
  jsonString e.1 ++ ":" ++ serializeVal e.2

/-- The comma-joined members of a serialized object. -/
def serializeEntries : List (String × JValue) → String
  | [] => ""
  | [e] => serializeEntry e
  | e :: rest => serializeEntry e ++ "," ++ serializeEntries rest

/-- `JSON.stringify` of a flat object, members in insertion order. -/
def serializeObj (l : List (String × JValue)) : String :=
  "\x7b" ++ serializeEntries l ++ "\x7d"

/-- The marginal size the truncation loop charges for a key:
`JSON.stringify({ [key]: value }).length`. -/
def entrySize (k : String) (v : JValue) : Nat :=
  (serializeObj [(k, v)]).length

/-- Sum of the standalone entry sizes of an object's members. -/
def sumEntrySizes : List (String × JValue) → Nat
  | [] => 0
  | (k, v) :: rest => entrySize k v + sumEntrySizes rest

/-- `String.prototype.slice(0, n)` (for `n ≥ 0`). -/
def jsSlice (s : String) (n : Nat) : String :=
  String.mk (s.data.take n)

/-- The value inserted for the key at the truncation boundary:
`typeof value === "string" ? value.slice(0, maxSize - size) + "..." : value`. -/
def boundaryValue : JValue → Nat → JValue
  | JValue.str s, n => JValue.str (jsSlice s n ++ "...")
  | v, _ => v

/-- The body of `truncateObject`'s `for` loop over `Object.entries(obj)`,
with the running `size` counter.  The per-entry `JSON.stringify` try/catch
never fires in the model, since every `JValue` is serializable. -/
def truncateObjectGo (maxSize : Nat) : List (String × JValue) → Nat → List (String × JValue)
  | [], _ => []
  | (k, v) :: rest, size =>
    if maxSize ≤ size then []
    else
      let eSize := entrySize k v
      if maxSize < size + eSize then
        (k, boundaryValue v (maxSize - size)) :: truncateObjectGo maxSize rest maxSize
      else
        (k, v) :: truncateObjectGo maxSize rest (size + eSize)

/-- `truncateObject(obj, maxSize)` from `src/pharaon.js` lines 169-195. -/
def truncateObject (obj : List (String × JValue)) (maxSize : Nat) : List (String × JValue) :=
  truncateObjectGo maxSize obj 0

/-- JavaScript whitespace recognized by `String.prototype.trim` (ASCII part;
the Unicode additions never occur in the inputs considered). -/
def isJsWhitespace (c : Char) : Bool :=
  c = ' ' || c = '\t' || c = '\n' || c = '\r' || c = '\x0b' || c = '\x0c'

/-- `String.prototype.trim`. -/
def jsTrim (s : String) : String :=
  String.mk (((s.data.dropWhile isJsWhitespace).reverse.dropWhile isJsWhitespace).reverse)

/-- The RFC 4122 v4 string the `crypto.getRandomValues` branch of
`generateUUID` builds from 16 random bytes, with the version nibble forced
to 4 (`buf[6] = (buf[6] & 0x0f) | 0x40`) and the variant bits forced to 10
(`buf[8] = (buf[8] & 0x3f) | 0x80`).  The `crypto.randomUUID` branch is an
environment capability contracted to return exactly such a string, so it is
modelled by the same construction. -/
def uuidFromBytes (bs : List Nat) : String :=
  String.mk
    (byteToHex (bs.getD 0 0) ++ byteToHex (bs.getD 1 0) ++
     byteToHex (bs.getD 2 0) ++ byteToHex (bs.getD 3 0) ++ ['-'] ++
     byteToHex (bs.getD 4 0) ++ byteToHex (bs.getD 5 0) ++ ['-'] ++
     byteToHex ((bs.getD 6 0 &&& 0x0f) ||| 0x40) ++ byteToHex (bs.getD 7 0) ++ ['-'] ++
     byteToHex ((bs.getD 8 0 &&& 0x3f) ||| 0x80) ++ byteToHex (bs.getD 9 0) ++ ['-'] ++
     byteToHex (bs.getD 10 0) ++ byteToHex (bs.getD 11 0) ++ byteToHex (bs.getD 12 0) ++
     byteToHex (bs.getD 13 0) ++ byteToHex (bs.getD 14 0) ++ byteToHex (bs.getD 15 0))

/-- Modelled from the spec: a "UUID-v4-shaped token" — 36 characters,
dashes at positions 8, 13, 18 and 23, version digit `4` at position 14 and
variant digit in 8-b at position 19.  Used only to state claim C7. -/
def isV4Shape (s : String) : Bool :=
  s.data.length == 36 &&
  s.data.getD 8 ' ' == '-' && s.data.getD 13 ' ' == '-' &&
  s.data.getD 18 ' ' == '-' && s.data.getD 23 ' ' == '-' &&
  s.data.getD 14 ' ' == '4' &&
  (s.data.getD 19 ' ' == '8' || s.data.getD 19 ' ' == '9' ||
    s.data.getD 19 ' ' == 'a' || s.data.getD 19 ' ' == 'b')

/-- JavaScript truthiness of a nullable string: `null` and `""` are falsy
(the `if (!pseudoId)` checks). -/
def truthy : Option String → Option String
  | none => none
  | some s => if s = "" then none else some s

/-- The two persistence tiers (`localStorage` under the key
`pharaon_user_pseudo_id`, and the fallback cookie of the same name) plus the
`localStorageAvailable` flag the constructor probes.  Storage is modelled as
behaving (reads and writes do not throw): the code's local try/catch around
each access is internal to `getUserPseudoId` and never reaches the claims. -/
structure Storage where
  localData : Option String
  cookieData : Option String
  lsAvailable : Bool
deriving DecidableEq

/-- The ambient environment: whether any `crypto` randomness source exists
(`crypto.randomUUID` / `crypto.getRandomValues`), the bytes such a source
would yield, and the `new Date().toISOString()` reading.  The remaining
browser probes (`location`, `referrer`, viewport, locale, user agent) are
independent reads no claim constrains, and are elided from the record. -/
structure Env where
  cryptoAvailable : Bool
  randomBytes : List Nat
  now : String
deriving DecidableEq

/-- Severity tag of a `console[type]` call issued through `log`. -/
inductive LogLevel
  | log
  | info
  | warn
  | error
deriving DecidableEq

/-- One diagnostic emitted through the `log` helper. -/
structure LogEntry where
  level : LogLevel
  message : String
deriving DecidableEq

/-- `generateUUID()` (`src/pharaon.js` lines 319-368): succeeds via a
crypto source, or logs and throws when none exists.  Returns the thrown
message in the `Except.error` case, paired with the logs it emitted. -/
def generateUUID (env : Env) : Except String String × List LogEntry :=
  if env.cryptoAvailable then
    (Except.ok (uuidFromBytes env.randomBytes), [])
  else
    (Except.error "Secure random number generation is not available.",
     [⟨LogLevel.error,
       "Secure random number generation is not available in this environment. Cannot generate a secure UUID."⟩])

/-- `getUserPseudoId()` (`src/pharaon.js` lines 235-284): read the durable
store, fall back to the cookie, and on a double miss generate a fresh token
and write it to both tiers; a generation failure is logged and rethrown. -/
def getUserPseudoId (env : Env) (st : Storage) :
    Except String (String × Storage) × List LogEntry :=
  let fromLS := if st.lsAvailable then truthy st.localData else none
  let pid0 := match fromLS with
    | some s => some s
    | none => truthy st.cookieData
  match pid0 with
  | some s => (Except.ok (s, st), [])
  | none =>
    match generateUUID env with
    | (Except.ok fresh, glogs) =>
      (Except.ok (fresh,
        { st with
          localData := if st.lsAvailable then some fresh else st.localData,
          cookieData := some fresh }), glogs)
    | (Except.error e, glogs) =>
      (Except.error "Cannot proceed without a user pseudo ID.",
       glogs ++ [⟨LogLevel.error, "Cannot generate user pseudo ID: " ++ e⟩])

/-- The `event` record `trackEvent` assembles (environment probe fields
other than the pseudo identity elided, see `Env`). -/
structure EventRecord where
  event_name : String
  event_timestamp : String
  user_pseudo_id : String
  event_params : List (String × JValue)
deriving DecidableEq

/-- The `userIdentifiersEvent` record `setUserIdentifiers` assembles. -/
structure IdRecord where
  user_pseudo_id : String
  timestamp_assignment : String
  user_identifiers : List (String × JValue)
deriving DecidableEq

/-- One `sendToServer` POST, i.e. one record handed to the sink.  The
`fetch` response handling is fire-and-forget and outside the model. -/
inductive SinkCall
  | sendEvent (url : String) (record : EventRecord)
  | sendIdentifiers (url : String) (record : IdRecord)
deriving DecidableEq

/-- The mutable fields of the `Pharaon` class instance.  `config` is split
into its two recognized options. -/
structure PharaonState where
  configEndpoint : Option String
  configDebug : Bool
  queue : List (JSVal × JSVal)
  isInitialized : Bool
  userIdentifiers : List (String × JValue)
  storage : Storage
deriving DecidableEq

/-- The state of a freshly constructed instance (`constructor`), given the
`localStorageAvailable` probe result. -/
def freshState (lsAvailable : Bool) : PharaonState :=
  { configEndpoint := none
    configDebug := false
    queue := []
    isInitialized := false
    userIdentifiers := []
    storage := { localData := none, cookieData := none, lsAvailable := lsAvailable } }

/-- Result of one public operation: the updated instance, the diagnostics
that `log` actually emitted (`force || this.config.debug`), and the records
handed to the sink. -/
structure OpResult where
  state : PharaonState
  logs : List LogEntry
  sinks : List SinkCall
deriving DecidableEq

/-- The argument object of `init`: each field is `some` exactly when the
caller's object carries that key, so the spread `{...this.config, ...config}`
lets a present key override the stored one. -/
structure ConfigArg where
  endpoint : Option String := none
  debug : Option Bool := none
deriving DecidableEq

/-- Rendering of `this.config.endpoint` inside a template literal: an
absent option prints as `undefined`. -/
def endpointStr : Option String → String
  | some e => e
  | none => "undefined"

/-- Falsiness of `this.config.endpoint` (absent or empty string). -/
def endpointFalsy : Option String → Bool
  | none => true
  | some e => e = ""

/-- `trackEvent(eventName, eventParams)` (`src/pharaon.js` lines 41-96).
Every failure, including the pseudo-identity exception, is caught by the
operation's `try`/`catch` and converted into the trailing
`Error in trackEvent: ...` diagnostic.  `JSON.stringify` of a modelled flat
object cannot throw, so that inner `catch` is unreachable here. -/
def trackEvent (env : Env) (s : PharaonState) (eventName eventParams : JSVal) : OpResult :=
  if !s.isInitialized then
    { state := { s with queue := s.queue ++ [(eventName, eventParams)] }, logs := [], sinks := [] }
  else
    match eventName with
    | JSVal.vstr name =>
      if jsTrim name = "" then
        { state := s,
          logs := [⟨LogLevel.error, "Event name is required and must be a non-empty string."⟩],
          sinks := [] }
      else
        let nameWarn : List LogEntry :=
          if 256 < name.length then
            [⟨LogLevel.warn,
              "Event name length (" ++ toString name.length ++
                " characters) exceeds the limit of 256. Truncating."⟩]
          else []
        let name1 := if 256 < name.length then jsSlice name 256 else name
        match eventParams with
        | JSVal.vobj fields =>
          let serialized := serializeObj fields
          let sizeWarn : List LogEntry :=
            if 65536 < serialized.length then
              [⟨LogLevel.warn,
                "event_params size (" ++ toString serialized.length ++
                  " bytes) exceeds the limit of 65536 bytes. Truncating."⟩]
            else []
          let fields1 := if 65536 < serialized.length then truncateObject fields 65536 else fields
          match getUserPseudoId env s.storage with
          | (Except.error e, glogs) =>
            { state := s,
              logs := nameWarn ++ sizeWarn ++ glogs ++
                [⟨LogLevel.error, "Error in trackEvent: " ++ e⟩],
              sinks := [] }
          | (Except.ok (pid, st'), glogs) =>
            { state := { s with storage := st' },
              logs := nameWarn ++ sizeWarn ++ glogs,
              sinks := [SinkCall.sendEvent (endpointStr s.configEndpoint ++ "/events")
                { event_name := name1
                  event_timestamp := env.now
                  user_pseudo_id := pid
                  event_params := fields1 }] }
        | _ =>
          { state := s,
            logs := nameWarn ++ [⟨LogLevel.error, "eventParams must be a flat object."⟩],
            sinks := [] }
    | _ =>
      { state := s,
        logs := [⟨LogLevel.error, "Event name is required and must be a non-empty string."⟩],
        sinks := [] }

/-- `setUserIdentifiers(identifiers)` (`src/pharaon.js` lines 102-136).
Note the source neither consults `isInitialized` nor writes
`this.userIdentifiers`: the call runs immediately in every state, and the
resident identifier field stays whatever it was. -/
def setUserIdentifiers (env : Env) (s : PharaonState) (identifiers : JSVal) : OpResult :=
  match identifiers with
  | JSVal.vobj fields =>
    let serialized := serializeObj fields
    if 2048 < serialized.length then
      { state := s,
        logs := [⟨LogLevel.error,
          "user_identifiers size (" ++ toString serialized.length ++
            " bytes) exceeds the limit of 2048 bytes. Operation rejected."⟩],
        sinks := [] }
    else
      match getUserPseudoId env s.storage with
      | (Except.error e, glogs) =>
        { state := s,
          logs := glogs ++ [⟨LogLevel.error, "Error in setUserIdentifiers: " ++ e⟩],
          sinks := [] }
      | (Except.ok (pid, st'), glogs) =>
        { state := { s with storage := st' },
          logs := glogs,
          sinks := [SinkCall.sendIdentifiers (endpointStr s.configEndpoint ++ "/identifiers")
            { user_pseudo_id := pid
              timestamp_assignment := env.now
              user_identifiers := fields }] }
  | _ =>
    { state := s,
      logs := [⟨LogLevel.error, "User identifiers must be a flat object."⟩],
      sinks := [] }

/-- Sequential application of `trackEvent` to a list of `(name, params)`
pairs, threading the state and concatenating the outputs.  This is both how
a host issues a sequence of calls and the body of `processQueue`'s
`forEach` (whose per-item `catch` is unreachable, since `trackEvent`'s own
`catch` already absorbs every failure). -/
def drainCalls (env : Env) : PharaonState → List (JSVal × JSVal) → OpResult
  | s, [] => { state := s, logs := [], sinks := [] }
  | s, (n, p) :: rest =>
    let r1 := trackEvent env s n p
    let r2 := drainCalls env r1.state rest
    { state := r2.state, logs := r1.logs ++ r2.logs, sinks := r1.sinks ++ r2.sinks }

/-- `processQueue()` (`src/pharaon.js` lines 290-299): replay the queue
through `trackEvent` in order, then clear it (`this.queue.length = 0`). -/
def processQueue (env : Env) (s : PharaonState) : OpResult :=
  let r := drainCalls env s s.queue
  { state := { r.state with queue := [] }, logs := r.logs, sinks := r.sinks }

/-- `init(config)` (`src/pharaon.js` lines 22-34): shallow-merge the options,
require a truthy endpoint (else the thrown error is caught and logged, with
the merge already performed), flip `isInitialized`, drain the queue, and
emit the debug-gated confirmation (its JSON rendering of the config is
abbreviated to a fixed message, which no claim inspects). -/
def init (env : Env) (s : PharaonState) (cfg : ConfigArg) : OpResult :=
  let ep := match cfg.endpoint with
    | some e => some e
    | none => s.configEndpoint
  let dbg := match cfg.debug with
    | some d => d
    | none => s.configDebug
  let s1 := { s with configEndpoint := ep, configDebug := dbg }
  if endpointFalsy ep then
    { state := s1,
      logs := [⟨LogLevel.error, "Error in init: Endpoint URL is required in the config."⟩],
      sinks := [] }
  else
    let s2 := { s1 with isInitialized := true }
    let r := processQueue env s2
    { state := r.state,
      logs := r.logs ++
        (if r.state.configDebug then [⟨LogLevel.info, "Initialized with config."⟩] else []),
      sinks := r.sinks }

/-- The event name carried by a queued call, for stating replay order. -/
def callName : JSVal × JSVal → String
  | (JSVal.vstr n, _) => n
  | _ => ""

/-- The event name a sink call delivers, for stating replay order. -/
def sinkEventName : SinkCall → String
  | SinkCall.sendEvent _ r => r.event_name
  | SinkCall.sendIdentifiers _ _ => ""

/-- A queued call that passes every `trackEvent` validation without
triggering truncation: a string name with a non-whitespace character and at
most 256 characters, and flat params within the 64 KB ceiling. -/
def validCallB : JSVal × JSVal → Bool
  | (JSVal.vstr n, JSVal.vobj fields) =>
    !(jsTrim n == "") && !(decide (256 < n.length)) &&
      !(decide (65536 < (serializeObj fields).length))
  | _ => false

/-- A concrete environment with a crypto source, used by witnesses. -/
def demoEnv : Env :=
  { cryptoAvailable := true, randomBytes := List.replicate 16 0,
    now := "2024-01-01T00:00:00.000Z" }

/-- A freshly constructed, unconfigured instance with available storage. -/
def demoUnconfigured : PharaonState := freshState true

/-- A configured instance with empty storage and resident identifier set. -/
def demoConfigured : PharaonState :=
  { freshState true with
    configEndpoint := some "https://collect.example", isInitialized := true }

set_option maxRecDepth 8000

/-- Once the running counter has reached the ceiling, the loop drops every
remaining key (the `if (size >= maxSize) break` guard). -/
lemma truncateObjectGo_start_ge (maxSize : Nat) (l : List (String × JValue)) (size : Nat)
    (h : maxSize ≤ size) : truncateObjectGo maxSize l size = [] := by
  cases l with
  | nil => rfl
  | cons e rest =>
    cases e with
    | mk k v => simp [truncateObjectGo, h]

/-- While the accumulated entry sizes stay strictly under the ceiling, the
loop keeps every key unchanged and charges its standalone serialized size. -/
lemma truncateObjectGo_append (maxSize : Nat) (pre l : List (String × JValue)) :
    ∀ size, size + sumEntrySizes pre < maxSize →
    truncateObjectGo maxSize (pre ++ l) size =
      pre ++ truncateObjectGo maxSize l (size + sumEntrySizes pre) := by
  induction pre with
  | nil =>
    intro size h
    simp [sumEntrySizes]
  | cons e rest ih =>
    intro size h
    obtain ⟨k, v⟩ := e
    have hs : sumEntrySizes ((k, v) :: rest) = entrySize k v + sumEntrySizes rest := by
      simp [sumEntrySizes]
    rw [hs] at h ⊢
    have h1 : ¬ maxSize ≤ size := by omega
    have h2 : ¬ maxSize < size + entrySize k v := by omega
    simp only [List.cons_append, truncateObjectGo, h1, h2, if_false, ite_false,
      List.append_eq]
    rw [ih (size + entrySize k v) (by omega), Nat.add_assoc]

/-- When a crypto source exists, `getUserPseudoId` always succeeds and
emits no diagnostics: either a stored token is found or a fresh one is
generated and written. -/
lemma getUserPseudoId_ok (env : Env) (st : Storage) (h : env.cryptoAvailable = true) :
    ∃ pid st', getUserPseudoId env st = (Except.ok (pid, st'), []) := by
  unfold getUserPseudoId
  cases hls : (if st.lsAvailable then truthy st.localData else none) with
  | some t => exact ⟨t, st, by simp [hls]⟩
  | none =>
    cases hck : truthy st.cookieData with
    | some t => exact ⟨t, st, by simp [hls, hck]⟩
    | none =>
      refine ⟨uuidFromBytes env.randomBytes,
        { st with
          localData := if st.lsAvailable then some (uuidFromBytes env.randomBytes)
            else st.localData,
          cookieData := some (uuidFromBytes env.randomBytes) }, ?_⟩
      simp [hls, hck, generateUUID, h]

/-- Claim C1 (code bug): `truncateObject` violates its own size ceiling.
At ceiling 1 the single boundary string is truncated-and-inserted, and the
result re-serializes to 12 bytes; and an input whose own serialized size is
within the ceiling (17 bytes at ceiling 17) is nevertheless altered,
because the loop charges each key its standalone `{key: value}` size. -/
theorem truncateObject_exceeds_ceiling :
    1 < (serializeObj (truncateObject [("a", JValue.str "xxxx")] 1)).length ∧
    truncateObject [("a", JValue.str "x"), ("b", JValue.str "y")] 17 ≠
      [("a", JValue.str "x"), ("b", JValue.str "y")] ∧
    (serializeObj [("a", JValue.str "x"), ("b", JValue.str "y")]).length ≤ 17 := by
  decide

/-- Claim C2 (counterexample): at the boundary key, a boolean value is
inserted unchanged — the loop's ternary keeps every non-string value — so
the claimed omission of non-string boundary values is false. -/
theorem truncateObject_boundary_keeps_nonstring :
    truncateObject [("a", JValue.bool true)] 1 = [("a", JValue.bool true)] ∧
    truncateObject [("a", JValue.bool true)] 1 ≠ [] := by
  decide

/-- Claim C2 (amended): keys are processed in insertion order under a
running counter of standalone entry sizes; every key before the first one
whose marginal size would push the total over the ceiling is kept
unchanged; the boundary key itself is inserted — truncated with an ellipsis
marker when its value is a string, unchanged otherwise — and every later
key is omitted. -/
theorem truncateObject_boundary_behavior (pre : List (String × JValue)) (k : String)
    (v : JValue) (rest : List (String × JValue)) (maxSize : Nat)
    (h1 : sumEntrySizes pre < maxSize)
    (h2 : maxSize < sumEntrySizes pre + entrySize k v) :
    truncateObject (pre ++ (k, v) :: rest) maxSize =
      pre ++ [(k, boundaryValue v (maxSize - sumEntrySizes pre))] := by
  unfold truncateObject
  rw [truncateObjectGo_append maxSize pre ((k, v) :: rest) 0 (by omega)]
  have h5 := truncateObjectGo_start_ge maxSize rest maxSize (Nat.le_refl maxSize)
  have h3 : ¬ maxSize ≤ sumEntrySizes pre := by omega
  simp only [Nat.zero_add, truncateObjectGo, h5]
  rw [if_neg h3, if_pos h2]

/-- Witness for C2's amended theorem: `{"a":"x","b":"y","c":1}` at ceiling
17 keeps `"a"`, truncates the boundary string of `"b"` with the ellipsis
marker, and omits `"c"`. -/
theorem truncateObject_boundary_behavior_witness :
    sumEntrySizes [("a", JValue.str "x")] < 17 ∧
    17 < sumEntrySizes [("a", JValue.str "x")] + entrySize "b" (JValue.str "y") ∧
    truncateObject ([("a", JValue.str "x")] ++ ("b", JValue.str "y") :: [("c", JValue.num 1)]) 17 =
      [("a", JValue.str "x")] ++
        [("b", boundaryValue (JValue.str "y") (17 - sumEntrySizes [("a", JValue.str "x")]))] :=
  ⟨by decide, by decide,
    truncateObject_boundary_behavior [("a", JValue.str "x")] "b" (JValue.str "y")
      [("c", JValue.num 1)] 17 (by decide) (by decide)⟩

/-- Claim C9: in the configured state, a non-empty event name consisting
only of whitespace fails the `!eventName.trim()` validation: the call is
rejected with an `InvalidInput` diagnostic, no record is produced or sent,
and the state is untouched. -/
theorem trackEvent_rejects_whitespace_name (env : Env) (s : PharaonState)
    (params : JSVal) (name : String)
    (hinit : s.isInitialized = true) (hne : name ≠ "") (hws : jsTrim name = "") :
    trackEvent env s (JSVal.vstr name) params =
      { state := s,
        logs := [⟨LogLevel.error, "Event name is required and must be a non-empty string."⟩],
        sinks := [] } := by
  unfold trackEvent
  simp [hinit, hws]

/-- Witness for C9 at the one-space name. -/
theorem trackEvent_rejects_whitespace_name_witness :
    (" " : String) ≠ "" ∧ jsTrim " " = "" ∧
    trackEvent demoEnv demoConfigured (JSVal.vstr " ") (JSVal.vobj []) =
      { state := demoConfigured,
        logs := [⟨LogLevel.error, "Event name is required and must be a non-empty string."⟩],
        sinks := [] } :=
  ⟨by decide, by decide,
    trackEvent_rejects_whitespace_name demoEnv demoConfigured (JSVal.vobj []) " "
      (by decide) (by decide) (by decide)⟩

/-- Claim C5: a `setUserIdentifiers` call whose argument serializes beyond
the 2048-byte ceiling is rejected whole: the returned state is exactly the
input state (in particular the resident identifier set is untouched),
nothing reaches the sink, and the only output is the error-level
`PayloadTooLarge` diagnostic — no truncation occurs. -/
theorem setUserIdentifiers_rejects_oversize (env : Env) (s : PharaonState)
    (fields : List (String × JValue))
    (h : 2048 < (serializeObj fields).length) :
    setUserIdentifiers env s (JSVal.vobj fields) =
      { state := s,
        logs := [⟨LogLevel.error,
          "user_identifiers size (" ++ toString (serializeObj fields).length ++
            " bytes) exceeds the limit of 2048 bytes. Operation rejected."⟩],
        sinks := [] } := by
  unfold setUserIdentifiers
  simp [h]

/-- Claim C10: an `init` without any endpoint (in the argument or the
stored configuration) fails after the shallow merge: the options are
already merged, `isInitialized` stays false, the queue is untouched, and
the thrown error is caught and logged rather than propagated. -/
theorem init_missing_endpoint_merges_config (env : Env) (s : PharaonState) (cfg : ConfigArg)
    (hinit : s.isInitialized = false) (hce : cfg.endpoint = none) (hse : s.configEndpoint = none) :
    init env s cfg =
      { state := { s with
          configEndpoint := none,
          configDebug := match cfg.debug with | some d => d | none => s.configDebug },
        logs := [⟨LogLevel.error, "Error in init: Endpoint URL is required in the config."⟩],
        sinks := [] } ∧
    (init env s cfg).state.isInitialized = false ∧
    (init env s cfg).state.queue = s.queue := by
  have h1 : init env s cfg =
      { state := { s with
          configEndpoint := none,
          configDebug := match cfg.debug with | some d => d | none => s.configDebug },
        logs := [⟨LogLevel.error, "Error in init: Endpoint URL is required in the config."⟩],
        sinks := [] } := by
    unfold init
    simp [hce, hse, endpointFalsy]
  refine ⟨h1, ?_, ?_⟩ <;> rw [h1] <;> simp [hinit]

/-- Witness for C10: a fresh instance, `init({debug: true})`. -/
theorem init_missing_endpoint_merges_config_witness :
    demoUnconfigured.isInitialized = false ∧
    (ConfigArg.mk none (some true)).endpoint = none ∧
    demoUnconfigured.configEndpoint = none ∧
    (init demoEnv demoUnconfigured (ConfigArg.mk none (some true)) =
      { state := { demoUnconfigured with configEndpoint := none, configDebug := true },
        logs := [⟨LogLevel.error, "Error in init: Endpoint URL is required in the config."⟩],
        sinks := [] } ∧
    (init demoEnv demoUnconfigured (ConfigArg.mk none (some true))).state.isInitialized = false ∧
    (init demoEnv demoUnconfigured (ConfigArg.mk none (some true))).state.queue =
      demoUnconfigured.queue) :=
  ⟨by decide, by decide, by decide,
    init_missing_endpoint_merges_config demoEnv demoUnconfigured (ConfigArg.mk none (some true))
      (by decide) (by decide) (by decide)⟩

/-- Claim C4 (code bug): `setUserIdentifiers` never writes
`this.userIdentifiers` — the field the constructor initializes stays empty
through every call, so no shallow-merge accumulation happens.  The second
conjunct runs the spec's own two-call scenario on a configured instance. -/
theorem setUserIdentifiers_resident_set_unchanged_bug :
    (∀ (env : Env) (s : PharaonState) (ids : JSVal),
      (setUserIdentifiers env s ids).state.userIdentifiers = s.userIdentifiers) ∧
    (setUserIdentifiers demoEnv
        (setUserIdentifiers demoEnv demoConfigured
          (JSVal.vobj [("plan", JValue.str "pro")])).state
        (JSVal.vobj [("region", JValue.str "eu")])).state.userIdentifiers = [] := by
  constructor
  · intro env s ids
    unfold setUserIdentifiers
    cases ids with
    | vobj fields =>
      by_cases hsz : 2048 < (serializeObj fields).length
      · simp [hsz]
      · rcases hok : getUserPseudoId env s.storage with ⟨exc, glogs⟩
        cases exc with
        | ok pr => simp [hsz, hok]
        | error e => simp [hsz, hok]
    | vstr a => rfl
    | vnum a => rfl
    | vbool a => rfl
    | vnull => rfl
    | vundef => rfl
    | varr => rfl
    | vfn => rfl
  · decide

/-- Claim C3 (counterexample): a `setIdentifiers` call issued while the
agent is still unconfigured is not buffered — the queue stays empty — and
it is executed immediately, handing a record to the sink. -/
theorem setUserIdentifiers_runs_before_init :
    demoUnconfigured.isInitialized = false ∧
    (setUserIdentifiers demoEnv demoUnconfigured
      (JSVal.vobj [("plan", JValue.str "pro")])).state.queue = [] ∧
    (setUserIdentifiers demoEnv demoUnconfigured
      (JSVal.vobj [("plan", JValue.str "pro")])).sinks ≠ [] := by
  decide

/-- An unconfigured `trackEvent` call only appends to the queue: no
validation, no diagnostics, no sink delivery. -/
lemma drainCalls_unconfigured (env : Env) (calls : List (JSVal × JSVal)) :
    ∀ s : PharaonState, s.isInitialized = false →
    drainCalls env s calls =
      { state := { s with queue := s.queue ++ calls }, logs := [], sinks := [] } := by
  induction calls with
  | nil =>
    intro s h
    simp [drainCalls]
  | cons c rest ih =>
    intro s h
    obtain ⟨n, p⟩ := c
    have ht : trackEvent env s n p =
        { state := { s with queue := s.queue ++ [(n, p)] }, logs := [], sinks := [] } := by
      unfold trackEvent
      simp [h]
    rw [drainCalls, ht, ih { s with queue := s.queue ++ [(n, p)] } h]
    simp

/-- A valid call processed in the configured state with a crypto source
produces exactly one sink event carrying its name, and leaves the agent
configured. -/
lemma trackEvent_valid_sink (env : Env) (s : PharaonState) (n p : JSVal)
    (hinit : s.isInitialized = true) (hcr : env.cryptoAvailable = true)
    (hv : validCallB (n, p) = true) :
    (trackEvent env s n p).sinks.map sinkEventName = [callName (n, p)] ∧
    (trackEvent env s n p).state.isInitialized = true := by
  cases n with
  | vstr name =>
    cases p with
    | vobj fields =>
      simp only [validCallB, Bool.and_eq_true, Bool.not_eq_true', beq_eq_false_iff_ne,
        ne_eq, decide_eq_false_iff_not] at hv
      obtain ⟨⟨h1, h2⟩, h3⟩ := hv
      obtain ⟨pid, st', hok⟩ := getUserPseudoId_ok env s.storage hcr
      unfold trackEvent
      simp [hinit, h1, h2, h3, hok, callName, sinkEventName]
    | vstr a => simp [validCallB] at hv
    | vnum a => simp [validCallB] at hv
    | vbool a => simp [validCallB] at hv
    | vnull => simp [validCallB] at hv
    | vundef => simp [validCallB] at hv
    | varr => simp [validCallB] at hv
    | vfn => simp [validCallB] at hv
  | vnum a => simp [validCallB] at hv
  | vbool a => simp [validCallB] at hv
  | vnull => simp [validCallB] at hv
  | vundef => simp [validCallB] at hv
  | vobj fields => simp [validCallB] at hv
  | varr => simp [validCallB] at hv
  | vfn => simp [validCallB] at hv

/-- Replaying a list of valid calls on a configured agent delivers exactly
one sink event per call, in order. -/
lemma drainCalls_valid (env : Env) (calls : List (JSVal × JSVal)) :
    ∀ s : PharaonState, s.isInitialized = true → env.cryptoAvailable = true →
    (∀ c ∈ calls, validCallB c = true) →
    (drainCalls env s calls).sinks.map sinkEventName = calls.map callName ∧
    (drainCalls env s calls).state.isInitialized = true := by
  induction calls with
  | nil =>
    intro s h1 h2 h3
    simp [drainCalls, h1]
  | cons c rest ih =>
    intro s h1 h2 h3
    obtain ⟨n, p⟩ := c
    have h4 := trackEvent_valid_sink env s n p h1 h2 (h3 _ (List.mem_cons_self _ _))
    have h5 := ih (trackEvent env s n p).state h4.2 h2
      (fun c hc => h3 c (List.mem_cons_of_mem _ hc))
    rw [drainCalls]
    simp [h4.1, h5.1, h5.2]

/-- Claim C3 (amended): every `trackEvent` call issued while the agent is
unconfigured is buffered without validation or sink delivery; the `init`
that configures the agent replays the buffered calls exactly once, in the
order issued, through the full `trackEvent` validation path, and empties
the queue — whereas `setIdentifiers` is executed immediately even before
`init` (see the counterexample), never enqueued.  Stated for calls that
pass validation, so that each replay is visible as one sink event carrying
the call's name. -/
theorem preinit_trackEvent_replay_fifo (env : Env) (s : PharaonState) (cfg : ConfigArg)
    (calls : List (JSVal × JSVal)) (e : String)
    (hinit : s.isInitialized = false) (hq : s.queue = [])
    (hcr : env.cryptoAvailable = true)
    (hv : ∀ c ∈ calls, validCallB c = true)
    (hep : cfg.endpoint = some e) (hne : e ≠ "") :
    (drainCalls env s calls).sinks = [] ∧
    (drainCalls env s calls).state.queue = calls ∧
    (init env (drainCalls env s calls).state cfg).state.queue = [] ∧
    (init env (drainCalls env s calls).state cfg).state.isInitialized = true ∧
    (init env (drainCalls env s calls).state cfg).sinks.map sinkEventName =
      calls.map callName := by
  have hd := drainCalls_unconfigured env calls s hinit
  rw [hd]
  refine ⟨rfl, by simp [hq], ?_⟩
  unfold init
  have hfalsy : endpointFalsy (some e) = false := by
    simp [endpointFalsy, hne]
  simp only [hep, hfalsy, Bool.false_eq_true, if_false, ite_false]
  unfold processQueue
  have hdv := drainCalls_valid env calls
    { s with
      queue := s.queue ++ calls,
      configEndpoint := some e,
      configDebug := match cfg.debug with | some d => d | none => s.configDebug,
      isInitialized := true }
    rfl hcr hv
  simp only [hq, List.nil_append] at hdv ⊢
  exact ⟨by trivial, hdv.2, by simp [hdv.1]⟩

/-- Witness for C3's amended theorem: one `trackEvent("signup", {plan:"pro"})`
before `init`, then `init({endpoint:"https://e"})`. -/
theorem preinit_trackEvent_replay_fifo_witness :
    demoUnconfigured.isInitialized = false ∧
    demoUnconfigured.queue = [] ∧
    (∀ c ∈ [(JSVal.vstr "signup", JSVal.vobj [("plan", JValue.str "pro")])],
      validCallB c = true) ∧
    ((drainCalls demoEnv demoUnconfigured
        [(JSVal.vstr "signup", JSVal.vobj [("plan", JValue.str "pro")])]).sinks = [] ∧
     (drainCalls demoEnv demoUnconfigured
        [(JSVal.vstr "signup", JSVal.vobj [("plan", JValue.str "pro")])]).state.queue =
       [(JSVal.vstr "signup", JSVal.vobj [("plan", JValue.str "pro")])] ∧
     (init demoEnv (drainCalls demoEnv demoUnconfigured
        [(JSVal.vstr "signup", JSVal.vobj [("plan", JValue.str "pro")])]).state
        (ConfigArg.mk (some "https://e") none)).state.queue = [] ∧
     (init demoEnv (drainCalls demoEnv demoUnconfigured
        [(JSVal.vstr "signup", JSVal.vobj [("plan", JValue.str "pro")])]).state
        (ConfigArg.mk (some "https://e") none)).state.isInitialized = true ∧
     (init demoEnv (drainCalls demoEnv demoUnconfigured
        [(JSVal.vstr "signup", JSVal.vobj [("plan", JValue.str "pro")])]).state
        (ConfigArg.mk (some "https://e") none)).sinks.map sinkEventName =
       [(JSVal.vstr "signup", JSVal.vobj [("plan", JValue.str "pro")])].map callName) :=
  ⟨by decide, by decide, by decide,
    preinit_trackEvent_replay_fifo demoEnv demoUnconfigured
      (ConfigArg.mk (some "https://e") none)
      [(JSVal.vstr "signup", JSVal.vobj [("plan", JValue.str "pro")])] "https://e"
      (by decide) (by decide) (by decide) (by decide) (by decide) (by decide)⟩

/-- Claim C6: in the configured state, an otherwise valid event name longer
than 256 characters does not abort the call: a warning is logged, the name
is cut to exactly 256 characters, and the event record is still assembled
and handed to the sink with the truncated name.  (A whitespace-only long
name would instead fail the earlier non-empty validation — that path is
claim C9.) -/
theorem trackEvent_truncates_long_name (env : Env) (s : PharaonState) (name : String)
    (fields : List (String × JValue))
    (hinit : s.isInitialized = true) (hcr : env.cryptoAvailable = true)
    (htrim : jsTrim name ≠ "") (hlen : 256 < name.length)
    (hsize : ¬ 65536 < (serializeObj fields).length) :
    ∃ pid st',
      trackEvent env s (JSVal.vstr name) (JSVal.vobj fields) =
        { state := { s with storage := st' }
          logs := [⟨LogLevel.warn,
            "Event name length (" ++ toString name.length ++
              " characters) exceeds the limit of 256. Truncating."⟩]
          sinks := [SinkCall.sendEvent (endpointStr s.configEndpoint ++ "/events")
            { event_name := jsSlice name 256
              event_timestamp := env.now
              user_pseudo_id := pid
              event_params := fields }] } ∧
      (jsSlice name 256).length = 256 := by
  obtain ⟨pid, st', hok⟩ := getUserPseudoId_ok env s.storage hcr
  refine ⟨pid, st', ?_, ?_⟩
  · unfold trackEvent
    simp [hinit, htrim, hlen, hsize, hok]
  · have h1 : (jsSlice name 256).length = (name.data.take 256).length := rfl
    rw [List.length_take] at h1
    have h2 : name.length = name.data.length := rfl
    omega

set_option maxRecDepth 8000 in
/-- Witness for C6: a 257-character name over empty params. -/
theorem trackEvent_truncates_long_name_witness :
    demoConfigured.isInitialized = true ∧
    demoEnv.cryptoAvailable = true ∧
    jsTrim (String.mk (List.replicate 257 'x')) ≠ "" ∧
    256 < (String.mk (List.replicate 257 'x')).length ∧
    ¬ 65536 < (serializeObj []).length ∧
    (∃ pid st',
      trackEvent demoEnv demoConfigured (JSVal.vstr (String.mk (List.replicate 257 'x')))
          (JSVal.vobj []) =
        { state := { demoConfigured with storage := st' }
          logs := [⟨LogLevel.warn,
            "Event name length (" ++ toString (String.mk (List.replicate 257 'x')).length ++
              " characters) exceeds the limit of 256. Truncating."⟩]
          sinks := [SinkCall.sendEvent
              (endpointStr demoConfigured.configEndpoint ++ "/events")
            { event_name := jsSlice (String.mk (List.replicate 257 'x')) 256
              event_timestamp := demoEnv.now
              user_pseudo_id := pid
              event_params := [] }] } ∧
      (jsSlice (String.mk (List.replicate 257 'x')) 256).length = 256) :=
  ⟨by decide, by decide, by decide, by decide, by decide,
    trackEvent_truncates_long_name demoEnv demoConfigured
      (String.mk (List.replicate 257 'x')) []
      (by decide) (by decide) (by decide) (by decide) (by decide)⟩

/-- Escaping a run of `'a'` characters leaves each one unchanged, so the
escaped body has the run's length. -/
lemma length_escapeList_replicate_a (n : Nat) :
    (escapeList (List.replicate n 'a')).length = n := by
  induction n with
  | zero => rfl
  | succ m ih =>
    rw [List.replicate_succ]
    show (escapeChar 'a' ++ escapeList (List.replicate m 'a')).length = m + 1
    rw [String.length_append, ih]
    have h1 : (escapeChar 'a').length = 1 := rfl
    omega

/-- The serialized size of the single-key object `{"k": s}`: the braces,
quotes, colon and one-character key contribute 8 bytes around the escaped
body of `s`. -/
lemma serializeObj_singleton_k_str_length (s : String) :
    (serializeObj [("k", JValue.str s)]).length = 8 + (escapeList s.data).length := by
  show ("\x7b" ++ serializeEntries [("k", JValue.str s)] ++ "\x7d").length =
    8 + (escapeList s.data).length
  rw [String.length_append, String.length_append]
  show 1 + (("\"k\":" ++ ("\"" ++ escapeList s.data ++ "\"")).length) + 1 =
    8 + (escapeList s.data).length
  rw [String.length_append, String.length_append, String.length_append]
  have e4 : ("\"k\":" : String).length = 4 := rfl
  have e1 : ("\"" : String).length = 1 := rfl
  rw [e4, e1]
  omega

/-- Witness for C5: a single key carrying a 2100-character string, whose
serialization (2108 bytes) exceeds the 2048-byte ceiling. -/
theorem setUserIdentifiers_rejects_oversize_witness :
    2048 < (serializeObj [("k", JValue.str (String.mk (List.replicate 2100 'a')))]).length ∧
    setUserIdentifiers demoEnv demoConfigured
        (JSVal.vobj [("k", JValue.str (String.mk (List.replicate 2100 'a')))]) =
      { state := demoConfigured,
        logs := [⟨LogLevel.error,
          "user_identifiers size (" ++
            toString (serializeObj
              [("k", JValue.str (String.mk (List.replicate 2100 'a')))]).length ++
            " bytes) exceeds the limit of 2048 bytes. Operation rejected."⟩],
        sinks := [] } :=
  have hlen : 2048 <
      (serializeObj [("k", JValue.str (String.mk (List.replicate 2100 'a')))]).length := by
    rw [serializeObj_singleton_k_str_length]
    have hd : (String.mk (List.replicate 2100 'a')).data = List.replicate 2100 'a' := rfl
    rw [hd, length_escapeList_replicate_a]
    omega
  ⟨hlen, setUserIdentifiers_rejects_oversize demoEnv demoConfigured
    [("k", JValue.str (String.mk (List.replicate 2100 'a')))] hlen⟩

/-- For a byte, the `(i + 0x100).toString(16).substr(1)` trick yields
exactly the two lowercase hex digits of the byte. -/
lemma byteToHex_eq_digits : ∀ b < 256,
    byteToHex b = [Nat.digitChar (b / 16), Nat.digitChar (b % 16)] := by
  decide

/-- Forcing the version nibble with `(b & 0x0f) | 0x40` keeps the value a
byte. -/
lemma version_byte_lt : ∀ b < 256, (b &&& 15) ||| 64 < 256 := by
  decide

/-- Forcing the variant bits with `(b & 0x3f) | 0x80` keeps the value a
byte. -/
lemma variant_byte_lt : ∀ b < 256, (b &&& 63) ||| 128 < 256 := by
  decide

/-- The high hex digit of the forced version byte is always `4`. -/
lemma version_digit_eq : ∀ b < 256, Nat.digitChar (((b &&& 15) ||| 64) / 16) = '4' := by
  decide

/-- The high hex digit of the forced variant byte is `8`, `9`, `a` or `b`. -/
lemma variant_digit_mem : ∀ b < 256,
    (Nat.digitChar (((b &&& 63) ||| 128) / 16) == '8' ||
     Nat.digitChar (((b &&& 63) ||| 128) / 16) == '9' ||
     Nat.digitChar (((b &&& 63) ||| 128) / 16) == 'a' ||
     Nat.digitChar (((b &&& 63) ||| 128) / 16) == 'b') = true := by
  decide

/-- Reading a byte list made of bytes (with default 0) yields a byte. -/
lemma getD_byte (bs : List Nat) (h : ∀ x ∈ bs, x < 256) (i : Nat) : bs.getD i 0 < 256 := by
  by_cases hi : i < bs.length
  · rw [List.getD_eq_getElem bs 0 hi]
    exact h _ (List.getElem_mem hi)
  · rw [List.getD_eq_default bs 0 (by omega)]
    omega

set_option maxHeartbeats 1600000 in
/-- The string built from any 16 random bytes is UUID-v4 shaped: 36
characters, dashed 8-4-4-4-12, version digit `4`, variant digit in 8-b. -/
lemma uuidFromBytes_shape (bs : List Nat) (h : ∀ x ∈ bs, x < 256) :
    isV4Shape (uuidFromBytes bs) = true := by
  have hb := getD_byte bs h
  have hvar := variant_digit_mem _ (hb 8)
  unfold uuidFromBytes
  rw [byteToHex_eq_digits _ (hb 0), byteToHex_eq_digits _ (hb 1),
    byteToHex_eq_digits _ (hb 2), byteToHex_eq_digits _ (hb 3),
    byteToHex_eq_digits _ (hb 4), byteToHex_eq_digits _ (hb 5),
    byteToHex_eq_digits _ (version_byte_lt _ (hb 6)), byteToHex_eq_digits _ (hb 7),
    byteToHex_eq_digits _ (variant_byte_lt _ (hb 8)), byteToHex_eq_digits _ (hb 9),
    byteToHex_eq_digits _ (hb 10), byteToHex_eq_digits _ (hb 11),
    byteToHex_eq_digits _ (hb 12), byteToHex_eq_digits _ (hb 13),
    byteToHex_eq_digits _ (hb 14), byteToHex_eq_digits _ (hb 15),
    version_digit_eq _ (hb 6)]
  simp only [List.cons_append, List.nil_append]
  simp only [isV4Shape, Bool.and_eq_true]
  exact ⟨⟨⟨⟨⟨⟨rfl, rfl⟩, rfl⟩, rfl⟩, rfl⟩, rfl⟩, hvar⟩

/-- A v4-shaped token is in particular non-empty (so it is truthy on the
second read). -/
lemma isV4Shape_ne_empty (t : String) (h : isV4Shape t = true) : t ≠ "" := by
  intro he
  rw [he] at h
  exact absurd h (by decide)

/-- Claim C7: with the token absent from both persistence tiers (and the
durable tier available), `getUserPseudoId` generates a UUID-v4-shaped token
from the crypto source, writes it to both tiers, and any later call — under
any environment, with no storage cleared — finds the stored token and
returns it unchanged without generating a new one. -/
theorem getUserPseudoId_fresh_v4_idempotent (env env2 : Env) (st : Storage)
    (hld : st.localData = none) (hcd : st.cookieData = none) (hav : st.lsAvailable = true)
    (hcr : env.cryptoAvailable = true) (hb : ∀ x ∈ env.randomBytes, x < 256) :
    getUserPseudoId env st =
      (Except.ok (uuidFromBytes env.randomBytes,
        { st with
          localData := some (uuidFromBytes env.randomBytes),
          cookieData := some (uuidFromBytes env.randomBytes) }), []) ∧
    isV4Shape (uuidFromBytes env.randomBytes) = true ∧
    getUserPseudoId env2
        { st with
          localData := some (uuidFromBytes env.randomBytes),
          cookieData := some (uuidFromBytes env.randomBytes) } =
      (Except.ok (uuidFromBytes env.randomBytes,
        { st with
          localData := some (uuidFromBytes env.randomBytes),
          cookieData := some (uuidFromBytes env.randomBytes) }), []) := by
  have hshape := uuidFromBytes_shape env.randomBytes hb
  have hne : uuidFromBytes env.randomBytes ≠ "" := isV4Shape_ne_empty _ hshape
  refine ⟨?_, hshape, ?_⟩
  · unfold getUserPseudoId
    simp [hld, hcd, hav, truthy, generateUUID, hcr]
  · unfold getUserPseudoId
    simp [hav, truthy, hne]

/-- Witness for C7: empty storage, the all-zero byte source, and a second
call made with no crypto source at all (the stored token makes generation
unnecessary). -/
theorem getUserPseudoId_fresh_v4_idempotent_witness :
    (Storage.mk none none true).localData = none ∧
    (Storage.mk none none true).cookieData = none ∧
    (Storage.mk none none true).lsAvailable = true ∧
    demoEnv.cryptoAvailable = true ∧
    (∀ x ∈ demoEnv.randomBytes, x < 256) ∧
    (getUserPseudoId demoEnv (Storage.mk none none true) =
      (Except.ok (uuidFromBytes demoEnv.randomBytes,
        { Storage.mk none none true with
          localData := some (uuidFromBytes demoEnv.randomBytes),
          cookieData := some (uuidFromBytes demoEnv.randomBytes) }), []) ∧
    isV4Shape (uuidFromBytes demoEnv.randomBytes) = true ∧
    getUserPseudoId { demoEnv with cryptoAvailable := false }
        { Storage.mk none none true with
          localData := some (uuidFromBytes demoEnv.randomBytes),
          cookieData := some (uuidFromBytes demoEnv.randomBytes) } =
      (Except.ok (uuidFromBytes demoEnv.randomBytes,
        { Storage.mk none none true with
          localData := some (uuidFromBytes demoEnv.randomBytes),
          cookieData := some (uuidFromBytes demoEnv.randomBytes) }), [])) :=
  ⟨by decide, by decide, by decide, by decide, by decide,
    getUserPseudoId_fresh_v4_idempotent demoEnv { demoEnv with cryptoAvailable := false }
      (Storage.mk none none true)
      (by decide) (by decide) (by decide) (by decide) (by decide)⟩

/-- Claim C8: each public operation is a total function of the instance
state, and every failure path surfaces only as logged diagnostics: when no
randomness source exists and storage holds no token, the pseudo-identity
exception thrown inside `trackEvent`/`setUserIdentifiers` is caught at the
operation boundary, logged, and nothing reaches the sink nor changes the
state; a non-string event name and non-object params abort `trackEvent`
with `InvalidInput` diagnostics; an `init` without endpoint logs its error
instead of propagating it. -/
theorem public_ops_catch_all_failures (env : Env) (s : PharaonState) (cfg : ConfigArg)
    (name : String) (fields : List (String × JValue)) (bad : JSVal)
    (hcr : env.cryptoAvailable = false)
    (hld : s.storage.localData = none) (hcd : s.storage.cookieData = none)
    (hinit : s.isInitialized = true)
    (htrim : jsTrim name ≠ "") (hlen : ¬ 256 < name.length)
    (hsz : ¬ 65536 < (serializeObj fields).length)
    (hid : ¬ 2048 < (serializeObj fields).length)
    (hbad : isPlainObject bad = false)
    (hcfg : cfg.endpoint = none) (hsep : s.configEndpoint = none) :
    trackEvent env s (JSVal.vstr name) (JSVal.vobj fields) =
      { state := s,
        logs := [⟨LogLevel.error,
            "Secure random number generation is not available in this environment. Cannot generate a secure UUID."⟩,
          ⟨LogLevel.error,
            "Cannot generate user pseudo ID: Secure random number generation is not available."⟩,
          ⟨LogLevel.error, "Error in trackEvent: Cannot proceed without a user pseudo ID."⟩],
        sinks := [] } ∧
    setUserIdentifiers env s (JSVal.vobj fields) =
      { state := s,
        logs := [⟨LogLevel.error,
            "Secure random number generation is not available in this environment. Cannot generate a secure UUID."⟩,
          ⟨LogLevel.error,
            "Cannot generate user pseudo ID: Secure random number generation is not available."⟩,
          ⟨LogLevel.error,
            "Error in setUserIdentifiers: Cannot proceed without a user pseudo ID."⟩],
        sinks := [] } ∧
    trackEvent env s (JSVal.vnum 0) (JSVal.vobj fields) =
      { state := s,
        logs := [⟨LogLevel.error, "Event name is required and must be a non-empty string."⟩],
        sinks := [] } ∧
    trackEvent env s (JSVal.vstr name) bad =
      { state := s,
        logs := [⟨LogLevel.error, "eventParams must be a flat object."⟩],
        sinks := [] } ∧
    init env s cfg =
      { state := { s with
          configEndpoint := none,
          configDebug := match cfg.debug with | some d => d | none => s.configDebug },
        logs := [⟨LogLevel.error, "Error in init: Endpoint URL is required in the config."⟩],
        sinks := [] } := by
  have hgen : getUserPseudoId env s.storage =
      (Except.error "Cannot proceed without a user pseudo ID.",
       [⟨LogLevel.error,
          "Secure random number generation is not available in this environment. Cannot generate a secure UUID."⟩,
        ⟨LogLevel.error,
          "Cannot generate user pseudo ID: Secure random number generation is not available."⟩]) := by
    unfold getUserPseudoId
    simp [hld, hcd, truthy, generateUUID, hcr]
  refine ⟨?_, ?_, ?_, ?_, ?_⟩
  · unfold trackEvent
    simp [hinit, htrim, hlen, hsz, hgen]
  · unfold setUserIdentifiers
    simp [hid, hgen]
  · unfold trackEvent
    simp [hinit]
  · unfold trackEvent
    cases bad with
    | vobj f2 => simp [isPlainObject] at hbad
    | vstr a => simp [hinit, htrim, hlen]
    | vnum a => simp [hinit, htrim, hlen]
    | vbool a => simp [hinit, htrim, hlen]
    | vnull => simp [hinit, htrim, hlen]
    | vundef => simp [hinit, htrim, hlen]
    | varr => simp [hinit, htrim, hlen]
    | vfn => simp [hinit, htrim, hlen]
  · unfold init
    simp [hcfg, hsep, endpointFalsy]

/-- Witness for C8: a configured instance with empty storage and no crypto
source, a valid short name, empty params, array params, and an endpoint-less
`init` argument. -/
theorem public_ops_catch_all_failures_witness :
    (Env.mk false [] "t").cryptoAvailable = false ∧
    ({ freshState true with isInitialized := true } : PharaonState).storage.localData = none ∧
    ({ freshState true with isInitialized := true } : PharaonState).storage.cookieData = none ∧
    ({ freshState true with isInitialized := true } : PharaonState).isInitialized = true ∧
    jsTrim "click" ≠ "" ∧
    ¬ 256 < ("click" : String).length ∧
    ¬ 65536 < (serializeObj []).length ∧
    ¬ 2048 < (serializeObj []).length ∧
    isPlainObject JSVal.varr = false ∧
    (ConfigArg.mk none none).endpoint = none ∧
    ({ freshState true with isInitialized := true } : PharaonState).configEndpoint = none ∧
    (trackEvent (Env.mk false [] "t") { freshState true with isInitialized := true }
        (JSVal.vstr "click") (JSVal.vobj []) =
      { state := { freshState true with isInitialized := true },
        logs := [⟨LogLevel.error,
            "Secure random number generation is not available in this environment. Cannot generate a secure UUID."⟩,
          ⟨LogLevel.error,
            "Cannot generate user pseudo ID: Secure random number generation is not available."⟩,
          ⟨LogLevel.error, "Error in trackEvent: Cannot proceed without a user pseudo ID."⟩],
        sinks := [] } ∧
    setUserIdentifiers (Env.mk false [] "t") { freshState true with isInitialized := true }
        (JSVal.vobj []) =
      { state := { freshState true with isInitialized := true },
        logs := [⟨LogLevel.error,
            "Secure random number generation is not available in this environment. Cannot generate a secure UUID."⟩,
          ⟨LogLevel.error,
            "Cannot generate user pseudo ID: Secure random number generation is not available."⟩,
          ⟨LogLevel.error,
            "Error in setUserIdentifiers: Cannot proceed without a user pseudo ID."⟩],
        sinks := [] } ∧
    trackEvent (Env.mk false [] "t") { freshState true with isInitialized := true }
        (JSVal.vnum 0) (JSVal.vobj []) =
      { state := { freshState true with isInitialized := true },
        logs := [⟨LogLevel.error, "Event name is required and must be a non-empty string."⟩],
        sinks := [] } ∧
    trackEvent (Env.mk false [] "t") { freshState true with isInitialized := true }
        (JSVal.vstr "click") JSVal.varr =
      { state := { freshState true with isInitialized := true },
        logs := [⟨LogLevel.error, "eventParams must be a flat object."⟩],
        sinks := [] } ∧
    init (Env.mk false [] "t") { freshState true with isInitialized := true }
        (ConfigArg.mk none none) =
      { state := { { freshState true with isInitialized := true } with
          configEndpoint := none,
          configDebug := match (ConfigArg.mk none none).debug with
            | some d => d
            | none => ({ freshState true with isInitialized := true } : PharaonState).configDebug },
        logs := [⟨LogLevel.error, "Error in init: Endpoint URL is required in the config."⟩],
        sinks := [] }) :=
  ⟨by decide, by decide, by decide, by decide, by decide, by decide, by decide, by decide,
    by decide, by decide, by decide,
    public_ops_catch_all_failures (Env.mk false [] "t")
      { freshState true with isInitialized := true } (ConfigArg.mk none none)
      "click" [] JSVal.varr
      (by decide) (by decide) (by decide) (by decide) (by decide) (by decide) (by decide)
      (by decide) (by decide) (by decide) (by decide)⟩

end Pharaon
